import Mathlib

/-!
Verification development for `src/salt/pillar/oracle.py`, the Oracle backend of
the sql_base external pillar.  The module contributes three pieces of behaviour:
option resolution with documented defaults (`_get_options`), a scoped cursor
acquisition that opens one connection per call (`_get_cursor`), and a driver
availability check (`__virtual__`), plus the `ext_pillar` entry point that
delegates to the inherited `fetch`.

The embedding below mirrors the Python source.  Configuration values are
modelled by `ConfVal` (strings, integers and booleans, the value kinds the
documented configuration uses); a dict is an association list looked up with
`List.lookup`.  The external cx_Oracle driver and the with-statement body are
modelled by a `Driver` record of outcomes, and `_get_cursor` is embedded as a
trace function recording the descriptor built, the observable result, the
number of connections opened and closed, and the log entries emitted.
-/

/-- A Python value appearing in the configuration block: the documented keys
hold strings (`user`, `pass`, `host`, `sid`, `service`), an integer (`port`)
or the boolean `False` (`service` default).  Malformed configurations may put
any of these kinds under any key; the source applies no validation. -/
inductive ConfVal
  | str  (s : String)
  | int  (n : Int)
  | bool (b : Bool)
deriving DecidableEq, Repr

/-- A Python dict of configuration entries, as an association list. -/
abbrev Opts := List (String × ConfVal)

/-- Python truthiness of a `ConfVal`: `bool("") = False`, `bool(0) = False`,
`bool(False) = False`, everything else true.  Used by `if _options['service']:`. -/
def ConfVal.truthy : ConfVal → Bool
  | .str s  => s != ""
  | .int n  => n != 0
  | .bool b => b

/-- The `defaults` dict of `OracleExtPillar._get_options`, in source order. -/
def defaults : Opts :=
  [("user", .str "salt"),
   ("pass", .str "salt"),
   ("host", .str "localhost"),
   ("port", .int 1521),
   ("sid", .str "XE"),
   ("service", .bool false)]

/-- The `for attr in defaults:` loop of `_get_options`: for each default key,
take the configured value when the key is in `_opts`, otherwise the default,
and record a debug-log entry (`log.debug('Using default for Oracle %s', attr)`)
for each defaulted key.  Returns the built `_options` dict together with the
list of keys logged as defaulted, both in loop order. -/
def resolveLoop (_opts : Opts) : Opts → Opts × List String
  | [] => ([], [])
  | (attr, dv) :: rest =>
    let r := resolveLoop _opts rest
    match _opts.lookup attr with
    | none   => ((attr, dv) :: r.1, attr :: r.2)
    | some v => ((attr, v) :: r.1, r.2)

/-- The provider class; it carries no state of its own (all state is local to
each call), so the structure has no fields. -/
structure OracleExtPillar

/-- `OracleExtPillar._db_name`: the class method returning the backend name. -/
def OracleExtPillar._db_name : String := "Oracle"

/-- `OracleExtPillar._get_options`.  The parameter is `__opts__.get('oracle', {})`
seen from the master configuration: `none` when the `oracle` key is absent,
`some block` when present.  Returns the resolved options together with the
keys for which a debug entry was logged. -/
def OracleExtPillar._get_options (oracleBlock : Option Opts) : Opts × List String :=
  resolveLoop (oracleBlock.getD []) defaults

/-- `__virtual__()`: the parameter is the imported `cx_Oracle` module, `none`
when the import failed.  Returns `bool(cx_Oracle)` paired with
`'No python oracle client installed.' if cx_Oracle is None else ''`. -/
def __virtual__ (cx_Oracle : Option Unit) : Bool × String :=
  (cx_Oracle.isSome,
   match cx_Oracle with
   | none   => "No python oracle client installed."
   | some _ => "")

/-- The connection descriptor returned by `cx_Oracle.makedsn`, recording which
arguments the source passes: host and port plus either the `service_name`
keyword argument or the `sid` keyword argument. -/
inductive Dsn
  | byService (host port service_name : ConfVal)
  | bySid (host port sid : ConfVal)
deriving DecidableEq, Repr

/-- The descriptor construction of `_get_cursor`:
`if _options['service']:` build the DSN from host, port and service name,
`else` from host, port and sid.  A `none` result models the `KeyError` a
missing dict key would raise; resolved options always have all keys
(`dsnOf_resolved_isSome`). -/
def dsnOf (_options : Opts) : Option Dsn :=
  match _options.lookup "service" with
  | none => none
  | some sv =>
    if sv.truthy then
      match _options.lookup "host", _options.lookup "port" with
      | some h, some p => some (.byService h p sv)
      | _, _ => none
    else
      match _options.lookup "host", _options.lookup "port", _options.lookup "sid" with
      | some h, some p, some s => some (.bySid h p s)
      | _, _, _ => none

/-- A Python exception observed by `_get_cursor`: either a
`cx_Oracle.DatabaseError` carrying its `args`, or any other exception type. -/
inductive Exn
  | databaseError (args : String)
  | otherError (name : String)
deriving DecidableEq, Repr

/-- The behaviour of the external cx_Oracle driver and of the with-statement
body for one invocation: the outcome of `cx_Oracle.connect`, of
`conn.cursor()`, and of the code run while the cursor is yielded. -/
structure Driver where
  connectResult : Except Exn Unit
  cursorResult  : Except Exn Unit
  bodyResult    : Except Exn Unit
deriving Repr

/-- Observable trace of one `_get_cursor` invocation: the descriptor built (if
construction was reached and succeeded), the result seen by the caller
(normal return or a propagated exception), how many connections were opened
and closed, and the error-log messages emitted. -/
structure CursorTrace where
  dsn    : Option Dsn
  result : Except Exn Unit
  opens  : Nat
  closes : Nat
  logged : List String
deriving Repr

/-- The message of `log.exception('Error in ext_pillar Oracle: %s', err.args)`. -/
def logMsg (args : String) : String := "Error in ext_pillar Oracle: " ++ args

/-- `OracleExtPillar._get_cursor`, embedded as a trace function.  Control flow
of the source: resolve options; build the DSN (`if _options['service']: ...
else: ...`); `conn = cx_Oracle.connect(...)`; `cursor = conn.cursor()`; then
`try: yield cursor / except cx_Oracle.DatabaseError as err: log.exception(...)
/ finally: conn.close()`.  Note that `connect` and `conn.cursor()` run before
the `try`, so an error there is not caught and, in the `conn.cursor()` case,
skips the `finally` that would close the already-open connection.  A
`DatabaseError` thrown into the yield is caught and logged, after which the
generator exits normally, so contextlib suppresses the exception; any other
exception is re-raised after the `finally` closes the connection. -/
def OracleExtPillar._get_cursor (oracleBlock : Option Opts) (d : Driver) : CursorTrace :=
  let _options := (OracleExtPillar._get_options oracleBlock).1
  match dsnOf _options with
  | none => ⟨none, .error (.otherError "KeyError"), 0, 0, []⟩
  | some dsn =>
    match d.connectResult with
    | .error e => ⟨some dsn, .error e, 0, 0, []⟩
    | .ok _ =>
      match d.cursorResult with
      | .error e => ⟨some dsn, .error e, 1, 0, []⟩
      | .ok _ =>
        match d.bodyResult with
        | .ok _ => ⟨some dsn, .ok (), 1, 1, []⟩
        | .error (.databaseError args) => ⟨some dsn, .ok (), 1, 1, [logMsg args]⟩
        | .error (.otherError n) => ⟨some dsn, .error (.otherError n), 1, 1, []⟩

/-- `ext_pillar(minion_id, pillar, *args, **kwargs)`: construct a fresh
`OracleExtPillar` and delegate to the inherited `fetch` with the same
arguments.  `fetch` lives in the external sql_base collaborator, so it is a
parameter here. -/
def ext_pillar {MinionId Pillar Args Kwargs Result : Type}
    (fetch : OracleExtPillar → MinionId → Pillar → Args → Kwargs → Result)
    (minion_id : MinionId) (pillar : Pillar) (args : Args) (kwargs : Kwargs) : Result :=
  fetch OracleExtPillar.mk minion_id pillar args kwargs

/-! ## Lemmas about option resolution -/

/-- Looking up a key in the dict built by the resolution loop: present default
keys resolve to the configured value when the key is configured, otherwise to
the default; keys not among the iterated defaults are absent. -/
theorem resolveLoop_lookup (ds _opts : Opts) (k : String) :
    ((resolveLoop _opts ds).1).lookup k
      = (ds.lookup k).map (fun dv => (_opts.lookup k).getD dv) := by
  induction ds with
  | nil => rfl
  | cons hd tl ih =>
    obtain ⟨attr, dv⟩ := hd
    by_cases hk : k = attr
    · subst hk
      simp only [resolveLoop]
      cases hlk : _opts.lookup k <;>
        simp [List.lookup, hlk]
    · have hk' : (k == attr) = false := beq_false_of_ne hk
      simp only [resolveLoop]
      cases hlk : _opts.lookup attr <;>
        simpa [List.lookup, hk'] using ih

/-- The key list of the resolved options is exactly the key list of the
iterated defaults, whatever the configuration contains. -/
theorem resolveLoop_keys (ds _opts : Opts) :
    ((resolveLoop _opts ds).1).map Prod.fst = ds.map Prod.fst := by
  induction ds with
  | nil => rfl
  | cons hd tl ih =>
    obtain ⟨attr, dv⟩ := hd
    simp only [resolveLoop]
    cases _opts.lookup attr <;> simp [ih]

/-- Resolved options: each default key maps to the configured value when
present, else to its default. -/
theorem _get_options_lookup (b : Option Opts) (k : String) (dv : ConfVal)
    (h : defaults.lookup k = some dv) :
    ((OracleExtPillar._get_options b).1).lookup k
      = some (((b.getD []).lookup k).getD dv) := by
  unfold OracleExtPillar._get_options
  rw [resolveLoop_lookup, h]
  rfl

/-- The descriptor construction always succeeds on resolved options (every
key it reads is present). -/
theorem dsnOf_resolved_isSome (b : Option Opts) :
    ∃ dsn, dsnOf ((OracleExtPillar._get_options b).1) = some dsn := by
  have hs := _get_options_lookup b "service" (.bool false) (by rfl)
  have hh := _get_options_lookup b "host" (.str "localhost") (by rfl)
  have hp := _get_options_lookup b "port" (.int 1521) (by rfl)
  have hsid := _get_options_lookup b "sid" (.str "XE") (by rfl)
  unfold dsnOf
  rw [hs, hh, hp, hsid]
  by_cases ht : ((List.lookup "service" (b.getD [])).getD (ConfVal.bool false)).truthy = true <;>
    simp [ht]

/-! ## Claims -/

/-- C1: when the yielded body raises a cx_Oracle.DatabaseError, `_get_cursor`
does not propagate it to the caller (the call returns normally), logs the
error, and the connection is closed before control returns. -/
theorem _get_cursor_suppresses_database_error (b : Option Opts) (d : Driver) (args : String)
    (hc : d.connectResult = .ok ()) (hcur : d.cursorResult = .ok ())
    (hb : d.bodyResult = .error (.databaseError args)) :
    (OracleExtPillar._get_cursor b d).result = .ok () ∧
    (OracleExtPillar._get_cursor b d).logged = [logMsg args] ∧
    (OracleExtPillar._get_cursor b d).closes = 1 := by
  obtain ⟨dsn, hdsn⟩ := dsnOf_resolved_isSome b
  simp [OracleExtPillar._get_cursor, hdsn, hc, hcur, hb]

/-- C1 witness: a concrete run whose body raises ORA-00942. -/
theorem _get_cursor_suppresses_database_error_witness :
    (OracleExtPillar._get_cursor none
      ⟨.ok (), .ok (), .error (.databaseError "ORA-00942")⟩).result = .ok () ∧
    (OracleExtPillar._get_cursor none
      ⟨.ok (), .ok (), .error (.databaseError "ORA-00942")⟩).logged
        = [logMsg "ORA-00942"] ∧
    (OracleExtPillar._get_cursor none
      ⟨.ok (), .ok (), .error (.databaseError "ORA-00942")⟩).closes = 1 :=
  _get_cursor_suppresses_database_error none
    ⟨.ok (), .ok (), .error (.databaseError "ORA-00942")⟩ "ORA-00942" rfl rfl rfl

/-- C2 counterexample: when `conn.cursor()` raises after a successful connect,
the connection is opened but never closed (`connect` and `conn.cursor()` run
before the try/finally), so the invocation does not end in the closed state
and the connection is not closed exactly once. -/
theorem _get_cursor_leak_on_cursor_failure :
    (OracleExtPillar._get_cursor none
      ⟨.ok (), .error (.otherError "InterfaceError"), .ok ()⟩).opens = 1 ∧
    (OracleExtPillar._get_cursor none
      ⟨.ok (), .error (.otherError "InterfaceError"), .ok ()⟩).closes = 0 :=
  ⟨rfl, rfl⟩

/-- C2 (amended): when connect and cursor acquisition both succeed, the
connection is closed exactly once whatever the body does; when connect itself
fails no connection is opened or closed; but when `conn.cursor()` fails after
a successful connect the connection is opened and never closed. -/
theorem _get_cursor_close_accounting (b : Option Opts) (d : Driver) :
    ((∃ u, d.connectResult = .ok u) → (∃ u, d.cursorResult = .ok u) →
      (OracleExtPillar._get_cursor b d).opens = 1 ∧
      (OracleExtPillar._get_cursor b d).closes = 1) ∧
    (∀ e, d.connectResult = .error e →
      (OracleExtPillar._get_cursor b d).opens = 0 ∧
      (OracleExtPillar._get_cursor b d).closes = 0) ∧
    (∀ e, d.connectResult = .ok () → d.cursorResult = .error e →
      (OracleExtPillar._get_cursor b d).opens = 1 ∧
      (OracleExtPillar._get_cursor b d).closes = 0) := by
  obtain ⟨dsn, hdsn⟩ := dsnOf_resolved_isSome b
  refine ⟨?_, ?_, ?_⟩
  · rintro ⟨u, hc⟩ ⟨u', hcur⟩
    cases u; cases u'
    cases hb : d.bodyResult with
    | ok v => simp [OracleExtPillar._get_cursor, hdsn, hc, hcur, hb]
    | error e => cases e <;> simp [OracleExtPillar._get_cursor, hdsn, hc, hcur, hb]
  · intro e hc
    simp [OracleExtPillar._get_cursor, hdsn, hc]
  · intro e hc hcur
    simp [OracleExtPillar._get_cursor, hdsn, hc, hcur]

/-- C2 (amended) witness: concrete success-path run, closed exactly once. -/
theorem _get_cursor_close_accounting_witness :
    (OracleExtPillar._get_cursor none ⟨.ok (), .ok (), .ok ()⟩).opens = 1 ∧
    (OracleExtPillar._get_cursor none ⟨.ok (), .ok (), .ok ()⟩).closes = 1 :=
  (_get_cursor_close_accounting none ⟨.ok (), .ok (), .ok ()⟩).1 ⟨(), rfl⟩ ⟨(), rfl⟩

/-- C3: when the `service` entry is truthy (a non-empty value), the descriptor
is built from host, port and the service name, with no hypothesis on `sid`
(so the `sid` value has no effect); when `service` is `False` the descriptor
is built from host, port and `sid`. -/
theorem dsnOf_service_precedence (_options : Opts) (sv h p : ConfVal)
    (hsv : _options.lookup "service" = some sv)
    (hh : _options.lookup "host" = some h)
    (hp : _options.lookup "port" = some p) :
    (sv.truthy = true → dsnOf _options = some (.byService h p sv)) ∧
    (sv = .bool false →
      ∀ s, _options.lookup "sid" = some s → dsnOf _options = some (.bySid h p s)) := by
  constructor
  · intro ht
    simp [dsnOf, hsv, hh, hp, ht]
  · rintro rfl s hsid
    simp [dsnOf, hsv, hh, hp, hsid, ConfVal.truthy]

/-- C3 witness: concrete options with a non-empty service name. -/
theorem dsnOf_service_precedence_witness :
    dsnOf [("user", .str "salt"), ("pass", .str "salt"), ("host", .str "dbhost"),
           ("port", .int 1521), ("sid", .str "XE"), ("service", .str "ORCLPDB1")]
      = some (.byService (.str "dbhost") (.int 1521) (.str "ORCLPDB1")) :=
  (dsnOf_service_precedence
    [("user", .str "salt"), ("pass", .str "salt"), ("host", .str "dbhost"),
     ("port", .int 1521), ("sid", .str "XE"), ("service", .str "ORCLPDB1")]
    (.str "ORCLPDB1") (.str "dbhost") (.int 1521) rfl rfl rfl).1 rfl

/-- C4: with the `oracle` block absent or empty, `_get_options` returns
exactly the documented defaults and logs one debug entry per defaulted key. -/
theorem _get_options_empty_defaults :
    OracleExtPillar._get_options none
      = ([("user", .str "salt"), ("pass", .str "salt"), ("host", .str "localhost"),
          ("port", .int 1521), ("sid", .str "XE"), ("service", .bool false)],
         ["user", "pass", "host", "port", "sid", "service"]) ∧
    OracleExtPillar._get_options (some [])
      = ([("user", .str "salt"), ("pass", .str "salt"), ("host", .str "localhost"),
          ("port", .int 1521), ("sid", .str "XE"), ("service", .bool false)],
         ["user", "pass", "host", "port", "sid", "service"]) :=
  ⟨rfl, rfl⟩

/-- C5: for each documented key, a value present in the configuration block is
returned verbatim (no validation or transformation), and an absent key gets
its documented default. -/
theorem _get_options_override_subset (block : Opts) (k : String) (dv : ConfVal)
    (hk : defaults.lookup k = some dv) :
    (∀ v, block.lookup k = some v →
      ((OracleExtPillar._get_options (some block)).1).lookup k = some v) ∧
    (block.lookup k = none →
      ((OracleExtPillar._get_options (some block)).1).lookup k = some dv) := by
  have h := _get_options_lookup (some block) k dv hk
  constructor
  · intro v hv
    rw [h]
    simp [hv]
  · intro hv
    rw [h]
    simp [hv]

/-- C5 witness: a block overriding only `port` with a non-numeric string: the
malformed value is passed through verbatim and `host` falls back to its
default. -/
theorem _get_options_override_subset_witness :
    ((OracleExtPillar._get_options (some [("port", .str "not-a-number")])).1).lookup "port"
        = some (.str "not-a-number") ∧
    ((OracleExtPillar._get_options (some [("port", .str "not-a-number")])).1).lookup "host"
        = some (.str "localhost") :=
  ⟨(_get_options_override_subset [("port", .str "not-a-number")] "port" (.int 1521) rfl).1
      (.str "not-a-number") rfl,
   (_get_options_override_subset [("port", .str "not-a-number")] "host"
      (.str "localhost") rfl).2 rfl⟩

/-- C6: with the driver absent, `__virtual__` reports `False` with a non-empty
reason string; with the driver present it reports `True` (and an empty
reason). -/
theorem virtual_check_driver_availability :
    (__virtual__ none).1 = false ∧ (__virtual__ none).2 ≠ "" ∧
    (__virtual__ (some ())).1 = true ∧ (__virtual__ (some ())).2 = "" := by
  refine ⟨rfl, ?_, rfl, rfl⟩
  decide

/-- C7: `ext_pillar` returns exactly the result of calling the inherited
`fetch` on a freshly constructed `OracleExtPillar` with the node identifier,
pillar tree and extension arguments passed through unmodified. -/
theorem ext_pillar_delegates_to_fetch {MinionId Pillar Args Kwargs Result : Type}
    (fetch : OracleExtPillar → MinionId → Pillar → Args → Kwargs → Result)
    (minion_id : MinionId) (pillar : Pillar) (args : Args) (kwargs : Kwargs) :
    ext_pillar fetch minion_id pillar args kwargs
      = fetch OracleExtPillar.mk minion_id pillar args kwargs := rfl

/-- C8: for every configuration block (including blocks with extra keys), the
resolved options have exactly the six documented keys, in this order; extra
keys never appear. -/
theorem _get_options_exact_keys (b : Option Opts) :
    ((OracleExtPillar._get_options b).1).map Prod.fst
      = ["user", "pass", "host", "port", "sid", "service"] := by
  unfold OracleExtPillar._get_options
  rw [resolveLoop_keys]
  rfl

/-- C9: a non-DatabaseError raised by the yielded body propagates to the
caller of `_get_cursor`, nothing is logged, and the connection is still
closed before it propagates. -/
theorem _get_cursor_propagates_other_errors (b : Option Opts) (d : Driver) (name : String)
    (hc : d.connectResult = .ok ()) (hcur : d.cursorResult = .ok ())
    (hb : d.bodyResult = .error (.otherError name)) :
    (OracleExtPillar._get_cursor b d).result = .error (.otherError name) ∧
    (OracleExtPillar._get_cursor b d).closes = 1 ∧
    (OracleExtPillar._get_cursor b d).logged = [] := by
  obtain ⟨dsn, hdsn⟩ := dsnOf_resolved_isSome b
  simp [OracleExtPillar._get_cursor, hdsn, hc, hcur, hb]

/-- C9 witness: a concrete body raising a KeyError-like exception. -/
theorem _get_cursor_propagates_other_errors_witness :
    (OracleExtPillar._get_cursor none
      ⟨.ok (), .ok (), .error (.otherError "KeyError")⟩).result
        = .error (.otherError "KeyError") ∧
    (OracleExtPillar._get_cursor none
      ⟨.ok (), .ok (), .error (.otherError "KeyError")⟩).closes = 1 ∧
    (OracleExtPillar._get_cursor none
      ⟨.ok (), .ok (), .error (.otherError "KeyError")⟩).logged = [] :=
  _get_cursor_propagates_other_errors none
    ⟨.ok (), .ok (), .error (.otherError "KeyError")⟩ "KeyError" rfl rfl rfl

/-- C10: an error raised before the cursor is yielded -- by `cx_Oracle.connect`
or by `conn.cursor()` -- is not caught by the scoped acquisition: it
propagates to the caller unchanged (even when it is a DatabaseError) and
nothing is logged; suppression applies only after the yield. -/
theorem _get_cursor_acquisition_errors_propagate (b : Option Opts) (d : Driver) (e : Exn) :
    (d.connectResult = .error e →
      (OracleExtPillar._get_cursor b d).result = .error e ∧
      (OracleExtPillar._get_cursor b d).logged = []) ∧
    (d.connectResult = .ok () → d.cursorResult = .error e →
      (OracleExtPillar._get_cursor b d).result = .error e ∧
      (OracleExtPillar._get_cursor b d).logged = []) := by
  obtain ⟨dsn, hdsn⟩ := dsnOf_resolved_isSome b
  constructor
  · intro hc
    simp [OracleExtPillar._get_cursor, hdsn, hc]
  · intro hc hcur
    simp [OracleExtPillar._get_cursor, hdsn, hc, hcur]

/-- C10 witness: a DatabaseError raised by connect itself propagates unlogged. -/
theorem _get_cursor_acquisition_errors_propagate_witness :
    (OracleExtPillar._get_cursor none
      ⟨.error (.databaseError "ORA-01017"), .ok (), .ok ()⟩).result
        = .error (.databaseError "ORA-01017") ∧
    (OracleExtPillar._get_cursor none
      ⟨.error (.databaseError "ORA-01017"), .ok (), .ok ()⟩).logged = [] :=
  (_get_cursor_acquisition_errors_propagate none
    ⟨.error (.databaseError "ORA-01017"), .ok (), .ok ()⟩
    (.databaseError "ORA-01017")).1 rfl
